import Mathlib

/-!
Shallow embedding of `florust_common/src/server.rs`: the plugin contract of
the florust server. The file declares the two error enums, the generic
`DataSourceManager<T>` trait, its three specializations (`i64`, `u64`, `f64`
producers), and the FFI construction aliases (`FFIResult`, the three
`Create*DataSourceManager` function types). Rust types are mapped as follows:
enums become inductives, the trait becomes a record of its methods over an
explicit instance-state type `S` (the `&self` receiver's interior-mutable
state; each async method threads it), `dyn` trait objects become a sigma
packing the hidden state type with the method record and current state, and
`Box` becomes a wrapper structure marking one level of owned indirection.
-/

namespace Florust

/-- `i64`: a signed 64-bit integer. -/
abbrev I64 : Type := {z : Int // -(2 ^ 63) ≤ z ∧ z < 2 ^ 63}

/-- `u64`: an unsigned 64-bit integer. -/
abbrev U64 : Type := Fin (2 ^ 64)

/-- `f64`: a 64-bit IEEE-754 float, modelled by its bit pattern (no float
arithmetic occurs in this module). -/
structure F64 where
  bits : Fin (2 ^ 64)

/-- `u8`. -/
abbrev Byte : Type := Fin 256

/-- `&[u8]`: a raw byte payload. -/
abbrev Bytes : Type := List Byte

/-- `DataSourceManagerError` (server.rs lines 21-25): the manager-local error
enum; its single variant carries a descriptive message string. -/
inductive DataSourceManagerError where
  | InvalidData (msg : String)
deriving DecidableEq

/-- `FlorustServerPluginError` (server.rs lines 7-19): the host-level error
enum; four registration-lifecycle variants carry the offending identifier and
one wrapper variant embeds a manager-local error. -/
inductive FlorustServerPluginError where
  | DataSourceAlreadyExists (id : String)
  | DataSourceDoesntExist (id : String)
  | DataSourceAlreadyDeregistered (id : String)
  | DataSourceManagerDoesntExist (id : String)
  | DataSourceManager (e : DataSourceManagerError)
deriving DecidableEq

/-- `pub type Result<T> = result::Result<T, DataSourceManagerError>` (line 32):
the specialized result type every trait operation returns. -/
abbrev Result (T : Type u) : Type u := Except DataSourceManagerError T

/-- `trait DataSourceManager<T>: Sync + Send` (server.rs lines 37-96): the
capability interface, one field per trait method. `S` is the implementing
type's interior state; each async method maps the state it was called in to
its result and the successor state. `manager_id` is the non-async `&self`
accessor returning a `&'static str`: it may read the interior state (Rust
does not forbid an implementation from varying its answer with
interior-mutable state), so it too is typed over `S`; being non-async and
`&self`, it leaves the state unchanged. -/
structure DataSourceManager (S T : Type) where
  manager_id : S → String
  register : S → String → Result Unit × S
  register_with_data : S → String → Bytes → Result Unit × S
  deregister : S → String → Result Unit × S
  deregister_with_data : S → String → Bytes → Result Unit × S
  update_data : S → String → Bytes → Result T × S

/-- A live manager: the method record (the vtable, fixed at construction)
together with the current interior state. -/
structure ManagerInstance (S T : Type) where
  ops : DataSourceManager S T
  state : S

/-- `dyn DataSourceManager<T>`: the trait object erases the concrete state
type. -/
abbrev DynDataSourceManager (T : Type) : Type 1 :=
  Σ S : Type, ManagerInstance S T

/-- `pub type IIntegerDataSourceManager = dyn DataSourceManager<i64>`
(line 100). -/
abbrev IIntegerDataSourceManager : Type 1 := DynDataSourceManager I64

/-- `pub type UIntegerDataSourceManager = dyn DataSourceManager<u64>`
(line 104). -/
abbrev UIntegerDataSourceManager : Type 1 := DynDataSourceManager U64

/-- `pub type FloatDataSourceManager = dyn DataSourceManager<f64>`
(line 108). -/
abbrev FloatDataSourceManager : Type 1 := DynDataSourceManager F64

/-- `Box<α>`: one level of owned indirection. -/
structure Box (α : Type u) : Type u where
  val : α

/-- `pub type FFIResult<T> = Box<Result<Box<T>>>` (line 113): the doubly
boxed result returned by plugin constructors. -/
abbrev FFIResult (T : Type u) : Type u := Box (Result (Box T))

/-- `toml::Value` of the external toml crate: a structured configuration
value. -/
inductive TomlValue where
  | string (s : String)
  | integer (n : Int)
  | float (v : F64)
  | boolean (b : Bool)
  | datetime (s : String)
  | array (xs : List TomlValue)
  | table (m : List (String × TomlValue))

/-- `toml::map::Map<String, toml::Value>`: the string-keyed configuration
table. -/
abbrev TomlMap : Type := List (String × TomlValue)

/-- `pub type CreateIIntegerDataSourceManager = unsafe extern "C"
fn(Box<Option<toml::map::Map<String, toml::Value>>>) ->
FFIResult<IIntegerDataSourceManager>` (line 116). -/
abbrev CreateIIntegerDataSourceManager : Type 1 :=
  Box (Option TomlMap) → FFIResult IIntegerDataSourceManager

/-- `pub type CreateUIntegerDataSourceManager` (line 119). -/
abbrev CreateUIntegerDataSourceManager : Type 1 :=
  Box (Option TomlMap) → FFIResult UIntegerDataSourceManager

/-- `pub type CreateFloatDataSourceManager` (line 122). -/
abbrev CreateFloatDataSourceManager : Type 1 :=
  Box (Option TomlMap) → FFIResult FloatDataSourceManager

/-- The three specializations of the capability interface declared at
server.rs lines 100-108, one per produced numeric type. -/
inductive Specialization where
  | iinteger
  | uinteger
  | float
deriving DecidableEq, Fintype

/-- The spec's `ProducedValue` tags: the closed set of numeric kinds a
manager can produce. -/
inductive ProducedType where
  | signed64
  | unsigned64
  | float64
deriving DecidableEq, Fintype

/-- The produced value type each specialization instantiates `T` at. -/
def Specialization.produced : Specialization → Type
  | .iinteger => I64
  | .uinteger => U64
  | .float => F64

/-- The numeric-kind tag of each specialization. -/
def Specialization.producedTag : Specialization → ProducedType
  | .iinteger => .signed64
  | .uinteger => .unsigned64
  | .float => .float64

/-- The trait-object type each specialization alias names. -/
def Specialization.managerType : Specialization → Type 1
  | .iinteger => IIntegerDataSourceManager
  | .uinteger => UIntegerDataSourceManager
  | .float => FloatDataSourceManager

/-- The exported constructor function type of each specialization, as the
three `Create*DataSourceManager` aliases declare it. -/
def Specialization.constructorType : Specialization → Type 1
  | .iinteger => CreateIIntegerDataSourceManager
  | .uinteger => CreateUIntegerDataSourceManager
  | .float => CreateFloatDataSourceManager

/-- The uniform constructor shape the spec describes: an owned optional
configuration table in, a doubly indirected result holding a manager of the
specialization's produced type out. -/
def Specialization.constructorShape (s : Specialization) : Type 1 :=
  Box (Option TomlMap) → FFIResult (DynDataSourceManager s.produced)

/-- The methods of the `DataSourceManager<T>` trait, one constructor per
method declared at server.rs lines 40, 51, 63, 74, 86 and 95. -/
inductive ManagerOp where
  | manager_id
  | register
  | register_with_data
  | deregister
  | deregister_with_data
  | update_data
deriving DecidableEq, Fintype

/-- Each trait method's signature in the embedding. -/
def ManagerOp.signature (S T : Type) : ManagerOp → Type
  | .manager_id => S → String
  | .register => S → String → Result Unit × S
  | .register_with_data => S → String → Bytes → Result Unit × S
  | .deregister => S → String → Result Unit × S
  | .deregister_with_data => S → String → Bytes → Result Unit × S
  | .update_data => S → String → Bytes → Result T × S

/-- The capability interface is exactly the dependent product of its methods:
a `DataSourceManager` record is the same data as one handler per `ManagerOp`. -/
def managerOpEquiv (S T : Type) :
    DataSourceManager S T ≃ ((op : ManagerOp) → ManagerOp.signature S T op) where
  toFun m := fun op =>
    match op with
    | .manager_id => m.manager_id
    | .register => m.register
    | .register_with_data => m.register_with_data
    | .deregister => m.deregister
    | .deregister_with_data => m.deregister_with_data
    | .update_data => m.update_data
  invFun f :=
    ⟨f .manager_id, f .register, f .register_with_data, f .deregister,
      f .deregister_with_data, f .update_data⟩
  left_inv m := rfl
  right_inv f := funext fun op => by cases op <;> rfl

/-- One invocation of a state-touching trait method, as the host routes it:
the method together with its `DataSourceId` and, where present, payload. -/
inductive ManagerCall where
  | register (id : String)
  | register_with_data (id : String) (data : Bytes)
  | deregister (id : String)
  | deregister_with_data (id : String) (data : Bytes)
  | update_data (id : String) (data : Bytes)

/-- Performing one call on a live manager: the method runs against the
current interior state and leaves its successor state; the vtable is behind
`&self` and is not written. -/
def ManagerInstance.call {S T : Type} (inst : ManagerInstance S T) :
    ManagerCall → ManagerInstance S T
  | .register id => { inst with state := (inst.ops.register inst.state id).2 }
  | .register_with_data id data =>
      { inst with state := (inst.ops.register_with_data inst.state id data).2 }
  | .deregister id => { inst with state := (inst.ops.deregister inst.state id).2 }
  | .deregister_with_data id data =>
      { inst with state := (inst.ops.deregister_with_data inst.state id data).2 }
  | .update_data id data =>
      { inst with state := (inst.ops.update_data inst.state id data).2 }

/-- A manager's whole lifetime after construction: the sequence of calls the
host routed to it, applied in order. -/
def ManagerInstance.run {S T : Type} (inst : ManagerInstance S T) :
    List ManagerCall → ManagerInstance S T
  | [] => inst
  | c :: cs => ManagerInstance.run (inst.call c) cs

/-- `manager_id()` observed on a live manager: the accessor applied to the
current interior state. -/
def ManagerInstance.manager_id {S T : Type} (inst : ManagerInstance S T) : String :=
  inst.ops.manager_id inst.state

/-- A countermodel manager, implementable in legal Rust (an `AtomicBool` set
by `register` and read by `manager_id`): its `manager_id` accessor answers
differently once `register` has flipped the interior flag. It witnesses that
the trait signature `fn manager_id(&self) -> &'static str` does not enforce
a constant answer across an instance's lifetime. -/
def flipManager : DataSourceManager Bool Unit where
  manager_id := fun s => if s then "after" else "before"
  register := fun _ _ => (Except.ok (), true)
  register_with_data := fun s _ _ => (Except.ok (), s)
  deregister := fun s _ => (Except.ok (), s)
  deregister_with_data := fun s _ _ => (Except.ok (), s)
  update_data := fun s _ _ =>
    (Except.error (DataSourceManagerError.InvalidData "no data"), s)

/-- The countermodel freshly constructed: flag down. -/
def flipInstance : ManagerInstance Bool Unit := ⟨flipManager, false⟩

/-- A stub manager whose `manager_id` accessor ignores the interior state,
as the spec's contract intends. -/
def stubManager : DataSourceManager Unit Unit where
  manager_id := fun _ => "stub"
  register := fun s _ => (Except.ok (), s)
  register_with_data := fun s _ _ => (Except.ok (), s)
  deregister := fun s _ => (Except.ok (), s)
  deregister_with_data := fun s _ _ => (Except.ok (), s)
  update_data := fun s _ _ =>
    (Except.error (DataSourceManagerError.InvalidData "stub"), s)

/-- The stub manager freshly constructed. -/
def stubInstance : ManagerInstance Unit Unit := ⟨stubManager, ()⟩

/-- The payload shape of the manager-local error enum: its one variant
carries exactly a message string. -/
def DataSourceManagerError.repr : DataSourceManagerError → String
  | .InvalidData msg => msg

/-- The payload shape of the host-level error enum: four identifier-carrying
lifecycle variants plus one wrapped manager-local error, in declaration
order. -/
def FlorustServerPluginError.repr :
    FlorustServerPluginError →
      String ⊕ String ⊕ String ⊕ String ⊕ DataSourceManagerError
  | .DataSourceAlreadyExists id => Sum.inl id
  | .DataSourceDoesntExist id => Sum.inr (Sum.inl id)
  | .DataSourceAlreadyDeregistered id => Sum.inr (Sum.inr (Sum.inl id))
  | .DataSourceManagerDoesntExist id => Sum.inr (Sum.inr (Sum.inr (Sum.inl id)))
  | .DataSourceManager e => Sum.inr (Sum.inr (Sum.inr (Sum.inr e)))

/-- Inverse of `FlorustServerPluginError.repr`. -/
def FlorustServerPluginError.unrepr :
    String ⊕ String ⊕ String ⊕ String ⊕ DataSourceManagerError →
      FlorustServerPluginError
  | Sum.inl id => .DataSourceAlreadyExists id
  | Sum.inr (Sum.inl id) => .DataSourceDoesntExist id
  | Sum.inr (Sum.inr (Sum.inl id)) => .DataSourceAlreadyDeregistered id
  | Sum.inr (Sum.inr (Sum.inr (Sum.inl id))) => .DataSourceManagerDoesntExist id
  | Sum.inr (Sum.inr (Sum.inr (Sum.inr e))) => .DataSourceManager e

/-- Modelled from the spec: a tagged serialization tree. The derived
serde `Serialize`/`Deserialize` implementations of the two error enums are
generated code not present in this repository; the spec only requires that
"structured error values must support encoding into and decoding from a
serialization format ... without loss". Serde's externally tagged enum
representation is one node naming the variant over its payload. -/
inductive Wire where
  | str (s : String)
  | tagged (tag : String) (payload : Wire)
deriving DecidableEq

/-- Modelled from the spec: encoding of the manager-local error, one tagged
node per variant carrying its message. -/
def encodeManagerError : DataSourceManagerError → Wire
  | .InvalidData msg => .tagged "InvalidData" (.str msg)

/-- Modelled from the spec: decoding of the manager-local error. -/
def decodeManagerError : Wire → Option DataSourceManagerError
  | .tagged "InvalidData" (.str msg) => some (.InvalidData msg)
  | _ => none

/-- Modelled from the spec: encoding of the host-level error, one tagged node
per variant; the wrapper variant nests the manager-local encoding. -/
def encodeServerError : FlorustServerPluginError → Wire
  | .DataSourceAlreadyExists id => .tagged "DataSourceAlreadyExists" (.str id)
  | .DataSourceDoesntExist id => .tagged "DataSourceDoesntExist" (.str id)
  | .DataSourceAlreadyDeregistered id =>
      .tagged "DataSourceAlreadyDeregistered" (.str id)
  | .DataSourceManagerDoesntExist id =>
      .tagged "DataSourceManagerDoesntExist" (.str id)
  | .DataSourceManager e => .tagged "DataSourceManager" (encodeManagerError e)

/-- Modelled from the spec: decoding of the host-level error. -/
def decodeServerError : Wire → Option FlorustServerPluginError
  | .tagged "DataSourceAlreadyExists" (.str id) =>
      some (.DataSourceAlreadyExists id)
  | .tagged "DataSourceDoesntExist" (.str id) => some (.DataSourceDoesntExist id)
  | .tagged "DataSourceAlreadyDeregistered" (.str id) =>
      some (.DataSourceAlreadyDeregistered id)
  | .tagged "DataSourceManagerDoesntExist" (.str id) =>
      some (.DataSourceManagerDoesntExist id)
  | .tagged "DataSourceManager" w =>
      (decodeManagerError w).map FlorustServerPluginError.DataSourceManager
  | _ => none

/-- C1: `update_data` returns either a successfully parsed value of the
produced type `T` or the manager-local invalid-data error carrying a message;
the two outcomes are mutually exclusive alternatives of the `Result`, so on
failure no (partial or default) numeric value is returned. -/
theorem update_data_ok_xor_invalid_data (S T : Type) (m : DataSourceManager S T)
    (s : S) (id : String) (data : Bytes) :
    ((∃ t, (m.update_data s id data).1 = Except.ok t) ∨
        ∃ msg, (m.update_data s id data).1 =
          Except.error (DataSourceManagerError.InvalidData msg)) ∧
      ¬((∃ t, (m.update_data s id data).1 = Except.ok t) ∧
        ∃ msg, (m.update_data s id data).1 =
          Except.error (DataSourceManagerError.InvalidData msg)) := by
  constructor
  · cases h : (m.update_data s id data).1 with
    | error e =>
      rcases e with ⟨msg⟩
      exact Or.inr ⟨msg, rfl⟩
    | ok t => exact Or.inl ⟨t, rfl⟩
  · rintro ⟨⟨t, ht⟩, msg, hm⟩
    rw [ht] at hm
    exact Except.noConfusion hm

/-- C2: the error taxonomy has exactly two layers: the manager-local error is
exactly one kind carrying a message string (its payload map to `String` is a
bijection), and the host-level error is exactly the four identifier-carrying
lifecycle kinds plus one wrapper embedding a manager-local error (its payload
map to the five-way sum is a bijection). -/
theorem error_taxonomy_exactly_two_layers :
    Function.Bijective DataSourceManagerError.repr ∧
      Function.Bijective FlorustServerPluginError.repr := by
  constructor
  · refine Function.bijective_iff_has_inverse.mpr
      ⟨fun msg => .InvalidData msg, ?_, ?_⟩
    · intro e
      cases e
      rfl
    · intro msg
      rfl
  · refine Function.bijective_iff_has_inverse.mpr
      ⟨FlorustServerPluginError.unrepr, ?_, ?_⟩
    · intro e
      cases e <;> rfl
    · intro v
      rcases v with id | id | id | id | e <;> rfl

/-- C3: encoding a host-level or manager-local error value to the
serialization format and decoding the result yields the same error, kind and
carried strings included: encode-then-decode is the identity. -/
theorem error_encode_decode_round_trip :
    (∀ e : DataSourceManagerError,
        decodeManagerError (encodeManagerError e) = some e) ∧
      ∀ e : FlorustServerPluginError,
        decodeServerError (encodeServerError e) = some e := by
  constructor
  · intro e
    cases e
    rfl
  · intro e
    cases e with
    | DataSourceAlreadyExists id => rfl
    | DataSourceDoesntExist id => rfl
    | DataSourceAlreadyDeregistered id => rfl
    | DataSourceManagerDoesntExist id => rfl
    | DataSourceManager inner =>
      cases inner
      rfl

/-- C4: every `FFIResult` value is the outer owned box around the
success-or-error outcome; on success the outcome holds the manager behind its
own inner owned box, on failure it holds the structured error and no inner
box — the two shapes are mutually exclusive, so the bare trait-object
reference never appears outside the inner box. -/
theorem ffi_result_double_indirection (T : Type u) (r : FFIResult T) :
    ((∃ m : T, r = Box.mk (Except.ok (Box.mk m))) ∨
        ∃ e : DataSourceManagerError, r = Box.mk (Except.error e)) ∧
      ¬((∃ m : T, r = Box.mk (Except.ok (Box.mk m))) ∧
        ∃ e : DataSourceManagerError, r = Box.mk (Except.error e)) := by
  obtain ⟨v⟩ := r
  constructor
  · cases v with
    | error e => exact Or.inr ⟨e, rfl⟩
    | ok b =>
      obtain ⟨m⟩ := b
      exact Or.inl ⟨m, rfl⟩
  · rintro ⟨⟨m, hm⟩, e, he⟩
    injection hm with hm'
    injection he with he'
    rw [hm'] at he'
    exact Except.noConfusion he'

/-- C5: the contract defines exactly three constructor function types, one
per specialization, and each is precisely the shape `owned optional
configuration table → doubly indirected result of a manager handle of the
specialization's produced type`. -/
theorem three_constructor_signatures :
    Fintype.card Specialization = 3 ∧
      ∀ s : Specialization, s.constructorType = s.constructorShape := by
  refine ⟨by decide, fun s => ?_⟩
  cases s <;> rfl

/-- C6: the specializations of the capability interface form a closed set of
exactly three members, in bijection with the three produced numeric kinds
(signed 64-bit integer, unsigned 64-bit integer, 64-bit float), and each
specialization alias is the trait object at its own produced type. -/
theorem specializations_closed_set_of_three :
    Fintype.card Specialization = 3 ∧
      Function.Bijective Specialization.producedTag ∧
      ∀ s : Specialization, s.managerType = DynDataSourceManager s.produced := by
  refine ⟨by decide, by decide, fun s => ?_⟩
  cases s <;> rfl

/-- C7 counterexample: the capability interface does not consist of exactly
five operations — `ManagerOp`, the enumeration of the trait's methods, has
cardinality different from five. -/
theorem capability_interface_not_five_operations :
    ¬Fintype.card ManagerOp = 5 := by decide

/-- C7 amended: the capability interface consists of exactly six operations —
`manager_id` plus the five `Result`-returning operations (`register`,
`register_with_data`, `deregister`, `deregister_with_data`, `update_data`);
a `DataSourceManager` record is exactly one handler per such operation. -/
theorem capability_interface_six_operations :
    Fintype.card ManagerOp = 6 ∧
      ∀ S T : Type, Nonempty
        (DataSourceManager S T ≃ ((op : ManagerOp) → ManagerOp.signature S T op)) :=
  ⟨by decide, fun S T => ⟨managerOpEquiv S T⟩⟩

/-- C8 counterexample: the claim that any two `manager_id` calls on the same
instance, at any points in its lifetime, return the same string is false: on
the countermodel `flipInstance` — a legal implementation of the trait, whose
accessor reads interior-mutable state — `manager_id` observed after one
`register` call differs from `manager_id` observed on the fresh instance. -/
theorem manager_id_varies_counterexample :
    ¬(flipInstance.run [ManagerCall.register "sensor-1"]).manager_id =
      flipInstance.manager_id := by decide

/-- C8 amended: `manager_id` is deterministic given the instance and its
current interior state, and the accessor itself is fixed at construction;
the trait signature alone does not force the answer to be independent of the
interior-mutable state, but for every implementation whose accessor is
state-independent — what the contract's documentation intends — any two calls
at any points in the instance's lifetime return the same string. -/
theorem manager_id_constant_when_state_independent (S T : Type)
    (inst : ManagerInstance S T)
    (h : ∀ s₁ s₂ : S, inst.ops.manager_id s₁ = inst.ops.manager_id s₂)
    (calls : List ManagerCall) :
    (inst.run calls).manager_id = inst.manager_id := by
  induction calls generalizing inst with
  | nil => rfl
  | cons c cs ih =>
    have hops : (inst.call c).ops = inst.ops := by cases c <;> rfl
    rw [ManagerInstance.run]
    rw [ih (inst.call c) (by rw [hops]; exact h)]
    show (inst.call c).ops.manager_id (inst.call c).state =
      inst.ops.manager_id inst.state
    rw [hops]
    exact h _ _

/-- C8 witness: the stub manager's accessor is state-independent, and its
observed `manager_id` after a register call equals the fresh one. -/
theorem manager_id_constant_when_state_independent_witness :
    (stubInstance.run [ManagerCall.register "sensor-1"]).manager_id =
      stubInstance.manager_id :=
  manager_id_constant_when_state_independent Unit Unit stubInstance
    (fun _ _ => rfl) [ManagerCall.register "sensor-1"]

/-- C9: every failure an interface operation can produce is the manager-local
error, whose only kind is invalid-data; no operation of the interface can
return a host-level lifecycle error, since its error channel cannot hold one. -/
theorem interface_failures_are_manager_local (S T : Type)
    (m : DataSourceManager S T) (s : S) (id : String) (data : Bytes) :
    (∀ e, (m.register s id).1 = Except.error e →
        ∃ msg, e = DataSourceManagerError.InvalidData msg) ∧
      (∀ e, (m.register_with_data s id data).1 = Except.error e →
        ∃ msg, e = DataSourceManagerError.InvalidData msg) ∧
      (∀ e, (m.deregister s id).1 = Except.error e →
        ∃ msg, e = DataSourceManagerError.InvalidData msg) ∧
      (∀ e, (m.deregister_with_data s id data).1 = Except.error e →
        ∃ msg, e = DataSourceManagerError.InvalidData msg) ∧
      ∀ e, (m.update_data s id data).1 = Except.error e →
        ∃ msg, e = DataSourceManagerError.InvalidData msg := by
  refine ⟨?_, ?_, ?_, ?_, ?_⟩ <;>
    exact fun e _ => match e with | .InvalidData msg => ⟨msg, rfl⟩

end Florust
